import Mathlib

/-!
Shallow embedding of the stock-portfolio accounting core:
the value objects (`Money`, `ProfitLoss`, `ExchangeRate`), the
`PortfolioPosition` aggregate, the two operation types
(`VestingOperation`, `TradeOperation`) and the calculation orchestrator
(`PortfolioCalculationService.executeOperations` with its 7-day rate
fallback and year-boundary gross-profit reset).

Modelling conventions:
* JS numbers are modelled as rationals (`ℚ`); share counts as `ℕ`
  (the `StockQuantity` constructor enforces a non-negative integer).
* JS `Date` values are modelled at calendar-day granularity as an
  epoch-day integer (`JDate`); `getTime` ordering is the integer order,
  `setDate(getDate() - k)` is subtraction of `k`, and `getFullYear` is
  the proleptic-Gregorian civil year `yearOfEpochDay`.
* Thrown exceptions become `Except` errors (`ExecError`), one
  constructor per distinct `throw` site relevant to the core.
-/

namespace StockPortfolio

/-- Calendar date as a count of days since 1970-01-01 (epoch day). -/
abbrev JDate := Int

/-- Civil (proleptic Gregorian) year of an epoch day; this is what
`Date.getFullYear` returns for the midnight-UTC dates the system uses.
Algorithm: standard civil-from-days computation. -/
def yearOfEpochDay (z : JDate) : Int :=
  let zd := z + 719468
  let era := Int.fdiv zd 146097
  let doe := zd - era * 146097
  let yoe := (doe - doe / 1460 + doe / 36524 - doe / 146096) / 365
  let y := yoe + era * 400
  let doy := doe - (365 * yoe + yoe / 4 - yoe / 100)
  let mp := (5 * doy + 2) / 153
  let m := if mp < 10 then mp + 3 else mp - 9
  if m ≤ 2 then y + 1 else y

/-- Epoch day of a civil date `y-m-d` (inverse of `yearOfEpochDay`'s
calendar); used to write concrete dates readably. -/
def daysFromCivil (y m d : Int) : JDate :=
  let y' := if m ≤ 2 then y - 1 else y
  let era := Int.fdiv y' 400
  let yoe := y' - era * 400
  let mp := if 2 < m then m - 3 else m + 9
  let doy := (153 * mp + 2) / 5 + d - 1
  let doe := yoe * 365 + yoe / 4 - yoe / 100 + doy
  era * 146097 + doe - 719468

/-- `Money` value object: an amount tagged with a currency code. -/
structure Money where
  amount : ℚ
  currency : String
deriving DecidableEq, Repr

/-- `ProfitLoss` value object: an accumulator amount with a currency. -/
structure ProfitLoss where
  amount : ℚ
  currency : String
deriving DecidableEq, Repr

/-- `ExchangeRate` entity: currency pair, quote date, optional bid/ask
sides (the constructor demands at least one side, each positive;
those constructor invariants are stated as hypotheses where needed). -/
structure ExchangeRate where
  fromCurrency : String
  toCurrency : String
  date : JDate
  bidRate : Option ℚ
  askRate : Option ℚ
deriving DecidableEq, Repr

/-- `ExchangeRate.convert`: multiplies by the selected side (bid when
`useBid`, else ask); fails when the currency mismatches or the selected
side is absent. -/
def ExchangeRate.convert (r : ExchangeRate) (amount : Money) (useBid : Bool := false) :
    Except String Money :=
  if amount.currency ≠ r.fromCurrency then
    .error "Cannot convert: currency mismatch"
  else
    match (if useBid then r.bidRate else r.askRate) with
    | none => .error "Selected rate side is not available"
    | some conversionRate => .ok ⟨amount.amount * conversionRate, r.toCurrency⟩

/-- `PortfolioPosition` aggregate: quantity, accumulated costs in both
currencies, stored USD average price, accumulated BRL gross profit and
the date of the last update. There is no stored BRL average price. -/
structure PortfolioPosition where
  quantity : ℕ
  totalCostUsd : Money
  totalCostBrl : Money
  averagePriceUsd : Money
  grossProfitBrl : ProfitLoss
  lastUpdated : JDate
deriving DecidableEq, Repr

/-- `isEmpty` getter: no shares held. -/
def PortfolioPosition.isEmpty (p : PortfolioPosition) : Bool :=
  p.quantity = 0

/-- Derived-on-read BRL average price: `totalCostBrl / quantity`, or 0
for an empty position. -/
def PortfolioPosition.averagePriceBrl (p : PortfolioPosition) : Money :=
  if p.isEmpty then ⟨0, "BRL"⟩
  else ⟨p.totalCostBrl.amount / (p.quantity : ℚ), "BRL"⟩

/-- `PortfolioPosition.createEmpty`. -/
def PortfolioPosition.createEmpty (date : JDate) : PortfolioPosition :=
  ⟨0, ⟨0, "USD"⟩, ⟨0, "BRL"⟩, ⟨0, "USD"⟩, ⟨0, "BRL"⟩, date⟩

/-- `resetGrossProfitForNewYear`: new position with gross profit zeroed,
all other fields copied. -/
def PortfolioPosition.resetGrossProfitForNewYear (p : PortfolioPosition) : PortfolioPosition :=
  { p with grossProfitBrl := ⟨0, "BRL"⟩ }

/-- The errors the core can raise, one constructor per relevant throw
site. -/
inductive ExecError where
  /-- `Cannot sell N shares, only M available` (requested, available). -/
  | insufficientShares (requested available : ℕ)
  /-- `Cannot sell from empty portfolio`. -/
  | emptySale
  /-- Bid or ask missing when both are required by an operation. -/
  | missingExchangeRate (message : String)
  /-- An `ExchangeRate.convert` failure surfaced by an operation. -/
  | conversion (message : String)
  /-- Rate lookup exhausted the 7-day fallback window (settlement date). -/
  | rateNotFound (settlementDate : JDate)
deriving DecidableEq, Repr

/-- Per-trade financials recorded in the metadata of a disposal. -/
structure TradeFinancials where
  saleRevenueUsd : Money
  saleRevenueBrl : Money
  costBasisUsd : Money
  costBasisBrl : Money
  profitLossBrl : ProfitLoss
deriving DecidableEq, Repr

/-- The `{ptaxBid, ptaxAsk}` pair actually used by an operation. -/
structure ExchangeRates where
  ptaxBid : ℚ
  ptaxAsk : ℚ
deriving DecidableEq, Repr

/-- `OperationMetadata`: immutable record of one applied operation. -/
structure OperationMetadata where
  operationType : String
  operationDate : JDate
  settlementDate : JDate
  quantity : ℕ
  pricePerShareUsd : Money
  exchangeRates : ExchangeRates
  tradeFinancials : Option TradeFinancials
deriving DecidableEq, Repr

/-- `OperationResult`: the `(newPosition, metadata)` pair returned by
`execute`. -/
structure OperationResult where
  position : PortfolioPosition
  metadata : OperationMetadata
deriving DecidableEq, Repr

/-- `VestingOperation` data: date, quantity, USD unit price, optional
settlement date (`null` defaults to the operation date on read). -/
structure VestingOperation where
  date : JDate
  quantity : ℕ
  pricePerShareUsd : Money
  settlementDate : Option JDate
deriving DecidableEq, Repr

/-- `VestingOperation.settlementDate` getter: `_settlementDate ?? date`. -/
def VestingOperation.getSettlementDate (op : VestingOperation) : JDate :=
  op.settlementDate.getD op.date

/-- The `VestingOperation` constructor's validation: USD price and
positive quantity. -/
def VestingOperation.create (date : JDate) (quantity : ℕ) (pricePerShareUsd : Money)
    (settlementDate : Option JDate) : Except String VestingOperation :=
  if pricePerShareUsd.currency ≠ "USD" then .error "Vesting price must be in USD"
  else if quantity ≤ 0 then .error "Vesting quantity must be positive"
  else .ok ⟨date, quantity, pricePerShareUsd, settlementDate⟩

/-- `VestingOperation.execute`: require both PTAX sides, convert the
vesting cost at the bid rate, accumulate quantity and costs, recompute
the USD average, keep gross profit unchanged. -/
def VestingOperation.execute (op : VestingOperation) (currentPosition : PortfolioPosition)
    (exchangeRate : ExchangeRate) : Except ExecError OperationResult :=
  match exchangeRate.bidRate, exchangeRate.askRate with
  | some bidRate, some askRate =>
    let vestingCostUsd : Money := ⟨op.pricePerShareUsd.amount * (op.quantity : ℚ), "USD"⟩
    match exchangeRate.convert vestingCostUsd true with
    | .error e => .error (.conversion e)
    | .ok vestingCostBrl =>
      let newQuantity : ℕ := currentPosition.quantity + op.quantity
      let newTotalCostUsd : Money := ⟨currentPosition.totalCostUsd.amount + vestingCostUsd.amount, "USD"⟩
      let newTotalCostBrl : Money := ⟨currentPosition.totalCostBrl.amount + vestingCostBrl.amount, "BRL"⟩
      let newAvgPriceUsd : Money :=
        ⟨if 0 < newQuantity then newTotalCostUsd.amount / (newQuantity : ℚ) else 0, "USD"⟩
      let newPosition : PortfolioPosition :=
        ⟨newQuantity, newTotalCostUsd, newTotalCostBrl, newAvgPriceUsd,
          currentPosition.grossProfitBrl, op.date⟩
      let metadata : OperationMetadata :=
        ⟨"vesting", op.date, op.getSettlementDate, op.quantity, op.pricePerShareUsd,
          ⟨bidRate, askRate⟩, none⟩
      .ok ⟨newPosition, metadata⟩
  | _, _ =>
    .error (.missingExchangeRate "Cotações PTAX (compra e venda) não encontradas")

/-- `TradeOperation` data: date, quantity, USD unit price, optional
settlement date. -/
structure TradeOperation where
  date : JDate
  quantity : ℕ
  pricePerShareUsd : Money
  settlementDate : Option JDate
deriving DecidableEq, Repr

/-- `TradeOperation.settlementDate` getter: `_settlementDate ?? date`. -/
def TradeOperation.getSettlementDate (op : TradeOperation) : JDate :=
  op.settlementDate.getD op.date

/-- The `TradeOperation` constructor's validation: USD price and
positive quantity. -/
def TradeOperation.create (date : JDate) (quantity : ℕ) (pricePerShareUsd : Money)
    (settlementDate : Option JDate) : Except String TradeOperation :=
  if pricePerShareUsd.currency ≠ "USD" then .error "Trade price must be in USD"
  else if quantity ≤ 0 then .error "Trade quantity must be positive"
  else .ok ⟨date, quantity, pricePerShareUsd, settlementDate⟩

/-- `TradeOperation.execute`: check sufficient shares, check both PTAX
sides, reduce quantity and costs proportionally, keep the USD average
(reset to 0 on full liquidation), convert sale revenue at the ask rate,
cost basis in BRL from the derived BRL average, accumulate the realized
profit/loss. -/
def TradeOperation.execute (op : TradeOperation) (currentPosition : PortfolioPosition)
    (exchangeRate : ExchangeRate) : Except ExecError OperationResult :=
  if op.quantity > currentPosition.quantity then
    .error (.insufficientShares op.quantity currentPosition.quantity)
  else if currentPosition.quantity = 0 then
    .error .emptySale
  else
    match exchangeRate.bidRate, exchangeRate.askRate with
    | some bidRate, some askRate =>
      let fractionSold : ℚ := (op.quantity : ℚ) / (currentPosition.quantity : ℚ)
      let newQuantity : ℕ := currentPosition.quantity - op.quantity
      let newTotalCostUsd : Money := ⟨currentPosition.totalCostUsd.amount * (1 - fractionSold), "USD"⟩
      let newTotalCostBrl : Money := ⟨currentPosition.totalCostBrl.amount * (1 - fractionSold), "BRL"⟩
      let newAvgPriceUsd : Money :=
        if newQuantity = 0 then ⟨0, "USD"⟩ else currentPosition.averagePriceUsd
      let saleRevenueUsd : Money := ⟨op.pricePerShareUsd.amount * (op.quantity : ℚ), "USD"⟩
      match exchangeRate.convert saleRevenueUsd with
      | .error e => .error (.conversion e)
      | .ok saleRevenueBrl =>
        let costBasisUsd : Money := ⟨currentPosition.averagePriceUsd.amount * (op.quantity : ℚ), "USD"⟩
        let costBasisBrl : Money := ⟨currentPosition.averagePriceBrl.amount * (op.quantity : ℚ), "BRL"⟩
        let profitLossBrl : ProfitLoss := ⟨saleRevenueBrl.amount - costBasisBrl.amount, "BRL"⟩
        let newGrossProfitBrl : ProfitLoss :=
          ⟨currentPosition.grossProfitBrl.amount + profitLossBrl.amount, "BRL"⟩
        let newPosition : PortfolioPosition :=
          ⟨newQuantity, newTotalCostUsd, newTotalCostBrl, newAvgPriceUsd,
            newGrossProfitBrl, op.date⟩
        let tradeFinancials : TradeFinancials :=
          ⟨saleRevenueUsd, saleRevenueBrl, costBasisUsd, costBasisBrl, profitLossBrl⟩
        let metadata : OperationMetadata :=
          ⟨"trade", op.date, op.getSettlementDate, op.quantity, op.pricePerShareUsd,
            ⟨bidRate, askRate⟩, some tradeFinancials⟩
        .ok ⟨newPosition, metadata⟩
    | _, _ =>
      .error (.missingExchangeRate "Both bid and ask rates are required for trade operation")

/-- The closed union of the two `PortfolioOperation` implementations. -/
inductive PortfolioOperation where
  | vesting (op : VestingOperation)
  | trade (op : TradeOperation)
deriving DecidableEq, Repr

/-- `getDate()`. -/
def PortfolioOperation.getDate : PortfolioOperation → JDate
  | .vesting op => op.date
  | .trade op => op.date

/-- `getSettlementDate()`. -/
def PortfolioOperation.getSettlementDate : PortfolioOperation → JDate
  | .vesting op => op.getSettlementDate
  | .trade op => op.getSettlementDate

/-- Polymorphic `execute` dispatch. -/
def PortfolioOperation.execute (operation : PortfolioOperation)
    (currentPosition : PortfolioPosition) (exchangeRate : ExchangeRate) :
    Except ExecError OperationResult :=
  match operation with
  | .vesting op => op.execute currentPosition exchangeRate
  | .trade op => op.execute currentPosition exchangeRate

/-- The external rate-lookup collaborator:
`getRate(base, quote, date) -> ExchangeRate | null`. -/
abbrev RateLookup := String → String → JDate → Option ExchangeRate

/-- The body of the fallback loop in `getExchangeRateForOperation`:
for each `daysBack` in the given list, query the lookup at
`settlementDate - daysBack` and return the first non-null rate. -/
def tryRatesFrom (lookup : RateLookup) (settlementDate : JDate) :
    List ℕ → Option ExchangeRate
  | [] => none
  | daysBack :: rest =>
    match lookup "USD" "BRL" (settlementDate - (daysBack : Int)) with
    | some rate => some rate
    | none => tryRatesFrom lookup settlementDate rest

/-- `PortfolioCalculationService.getExchangeRateForOperation`: try the
settlement date and up to 7 days earlier (offsets 0..7); exhausting all
8 attempts raises `RateNotFoundError`. -/
def getExchangeRateForOperation (lookup : RateLookup) (operation : PortfolioOperation) :
    Except ExecError ExchangeRate :=
  let settlementDate := operation.getSettlementDate
  match tryRatesFrom lookup settlementDate (List.range 8) with
  | some rate => .ok rate
  | none => .error (.rateNotFound settlementDate)

/-- The comparator used by `executeOperations`'s sort:
`a.getDate().getTime() - b.getDate().getTime()` ascending. -/
def dateLe (a b : PortfolioOperation) : Prop :=
  a.getDate ≤ b.getDate

instance : DecidableRel dateLe := fun a b =>
  inferInstanceAs (Decidable (a.getDate ≤ b.getDate))

instance : IsTotal PortfolioOperation dateLe :=
  ⟨fun a b => le_total a.getDate b.getDate⟩

instance : IsTrans PortfolioOperation dateLe :=
  ⟨fun _ _ _ hab hbc => le_trans hab hbc⟩

/-- The execution loop of `executeOperations`. The source guards the
mid-stream year reset with `positions.length > 0` (i.e. "at least one
operation already executed in this run"); that condition is carried here
as the flag `isFirst` (true exactly when `positions` is still empty). -/
def runOps (lookup : RateLookup) :
    List PortfolioOperation → PortfolioPosition → Bool →
    Except ExecError (List PortfolioPosition × List OperationResult)
  | [], _, _ => .ok ([], [])
  | operation :: rest, currentPosition, isFirst =>
    let pos :=
      if isFirst = false ∧
          yearOfEpochDay operation.getDate > yearOfEpochDay currentPosition.lastUpdated then
        currentPosition.resetGrossProfitForNewYear
      else currentPosition
    match getExchangeRateForOperation lookup operation with
    | .error e => .error e
    | .ok exchangeRate =>
      match operation.execute pos exchangeRate with
      | .error e => .error e
      | .ok result =>
        match runOps lookup rest result.position false with
        | .error e => .error e
        | .ok (positions, results) =>
          .ok (result.position :: positions, result :: results)

/-- `PortfolioCalculationService.executeOperations`: empty input returns
empty output; otherwise sort ascending by operation date (stable for
ties, as the JS engine's `Array.prototype.sort`), seed the position from
`initialPosition` (applying the first-operation year reset when one was
supplied) or an empty position at the first operation's date, then fold
the operations. -/
def executeOperations (lookup : RateLookup) (operations : List PortfolioOperation)
    (initialPosition : Option PortfolioPosition) :
    Except ExecError (List PortfolioPosition × List OperationResult) :=
  match List.insertionSort dateLe operations with
  | [] => .ok ([], [])
  | firstOp :: rest =>
    let start :=
      match initialPosition with
      | some p =>
        if yearOfEpochDay firstOp.getDate > yearOfEpochDay p.lastUpdated then
          p.resetGrossProfitForNewYear
        else p
      | none => PortfolioPosition.createEmpty firstOp.getDate
    runOps lookup (firstOp :: rest) start true

/-- Specification-worded variant of the execution loop: before every
operation (first or not), reset the gross profit exactly when the
operation's calendar year exceeds the current position's year. Used to
state the year-reset claim as a refinement of `runOps`. -/
def runOpsYearReset (lookup : RateLookup) :
    List PortfolioOperation → PortfolioPosition →
    Except ExecError (List PortfolioPosition × List OperationResult)
  | [], _ => .ok ([], [])
  | operation :: rest, currentPosition =>
    let pos :=
      if yearOfEpochDay operation.getDate > yearOfEpochDay currentPosition.lastUpdated then
        currentPosition.resetGrossProfitForNewYear
      else currentPosition
    match getExchangeRateForOperation lookup operation with
    | .error e => .error e
    | .ok exchangeRate =>
      match operation.execute pos exchangeRate with
      | .error e => .error e
      | .ok result =>
        match runOpsYearReset lookup rest result.position with
        | .error e => .error e
        | .ok (positions, results) =>
          .ok (result.position :: positions, result :: results)

/-- Specification-worded orchestrator: seed from the initial position
(or an empty one) with no special pre-loop reset, and apply the uniform
year-reset rule of `runOpsYearReset` before every operation. -/
def executeOperationsYearReset (lookup : RateLookup) (operations : List PortfolioOperation)
    (initialPosition : Option PortfolioPosition) :
    Except ExecError (List PortfolioPosition × List OperationResult) :=
  match List.insertionSort dateLe operations with
  | [] => .ok ([], [])
  | firstOp :: rest =>
    runOpsYearReset lookup (firstOp :: rest)
      (initialPosition.getD (PortfolioPosition.createEmpty firstOp.getDate))

/-! Concrete fixtures, drawn from the repository's regression tests and
the specification's worked examples, used to instantiate the theorems
below on closed inputs. -/

/-- First vesting of the regression test: 100 shares @ 6.50 USD on
2023-02-15, PTAX 5.2237 both sides. -/
def vestingFeb : VestingOperation :=
  ⟨daysFromCivil 2023 2 15, 100, ⟨13/2, "USD"⟩, some (daysFromCivil 2023 2 15)⟩

/-- Second vesting of the regression test: 100 shares @ 4.431929 USD on
2023-06-20, PTAX 4.7924 both sides. -/
def vestingJun : VestingOperation :=
  ⟨daysFromCivil 2023 6 20, 100, ⟨4431929/1000000, "USD"⟩, some (daysFromCivil 2023 6 20)⟩

/-- PTAX quote used by `vestingFeb`. -/
def ptaxFeb : ExchangeRate :=
  ⟨"USD", "BRL", daysFromCivil 2023 2 15, some (52237/10000), some (52237/10000)⟩

/-- PTAX quote used by `vestingJun`. -/
def ptaxJun : ExchangeRate :=
  ⟨"USD", "BRL", daysFromCivil 2023 6 20, some (47924/10000), some (47924/10000)⟩

/-- The two regression-test vestings applied in sequence from an empty
position. -/
def vestingChain : Except ExecError OperationResult :=
  Except.bind (vestingFeb.execute (PortfolioPosition.createEmpty (daysFromCivil 2023 1 1)) ptaxFeb)
    (fun r => vestingJun.execute r.position ptaxJun)

/-- Worked trade example: a 200-share position with accumulated BRL cost
9000 (USD cost 2000, USD average 10). -/
def c1Position : PortfolioPosition :=
  ⟨200, ⟨2000, "USD"⟩, ⟨9000, "BRL"⟩, ⟨10, "USD"⟩, ⟨0, "BRL"⟩, daysFromCivil 2023 1 1⟩

/-- Worked trade example: sell 100 shares @ 12 USD. -/
def c1Trade : TradeOperation :=
  ⟨daysFromCivil 2023 5 1, 100, ⟨12, "USD"⟩, none⟩

/-- Worked trade example: PTAX bid 4.8 / ask 4.9. -/
def c1Rate : ExchangeRate :=
  ⟨"USD", "BRL", daysFromCivil 2023 5 1, some (24/5), some (49/10)⟩

/-- Vesting fixture: 100 shares @ 6.50 USD, rate bid 5 / ask 6. -/
def c3Vesting : VestingOperation := ⟨daysFromCivil 2023 2 15, 100, ⟨13/2, "USD"⟩, none⟩

/-- Rate fixture for `c3Vesting`. -/
def c3Rate : ExchangeRate := ⟨"USD", "BRL", daysFromCivil 2023 2 15, some 5, some 6⟩

/-- Operation whose settlement date is epoch day 100. -/
def c5Op : PortfolioOperation := .vesting ⟨100, 1, ⟨1, "USD"⟩, some 100⟩

/-- Rate present only at exactly 7 days before epoch day 100. -/
def c5RateWeekAgo : ExchangeRate := ⟨"USD", "BRL", 93, some 5, some 5⟩

/-- Lookup answering only at epoch day 93 (= 100 − 7). -/
def c5LookupHit : RateLookup := fun _ _ d => if d = 93 then some c5RateWeekAgo else none

/-- Lookup that never answers. -/
def c5LookupNone : RateLookup := fun _ _ _ => none

/-- Oversell fixture: sell 300 shares from a 200-share position. -/
def c6Trade : TradeOperation := ⟨daysFromCivil 2023 5 1, 300, ⟨12, "USD"⟩, none⟩

/-- Full-liquidation fixture: sell all 200 shares @ 12 USD. -/
def c7TradeFull : TradeOperation := ⟨daysFromCivil 2023 5 1, 200, ⟨12, "USD"⟩, none⟩

/-- Partial-sale fixture: sell 50 of 200 shares @ 12 USD. -/
def c7TradePart : TradeOperation := ⟨daysFromCivil 2023 5 1, 50, ⟨12, "USD"⟩, none⟩

/-- Constant lookup used by the order-dependence examples. -/
def c8Lookup : RateLookup := fun _ _ _ => some ⟨"USD", "BRL", 0, some 2, some 2⟩

/-- Same-date vesting, price 1 USD. -/
def c8VestA : PortfolioOperation := .vesting ⟨19400, 1, ⟨1, "USD"⟩, none⟩

/-- Same-date vesting, price 3 USD. -/
def c8VestB : PortfolioOperation := .vesting ⟨19400, 1, ⟨3, "USD"⟩, none⟩

/-- Distinct-date vesting, day 19400. -/
def c8DistinctA : PortfolioOperation := .vesting ⟨19400, 1, ⟨1, "USD"⟩, none⟩

/-- Distinct-date vesting, day 19410. -/
def c8DistinctB : PortfolioOperation := .vesting ⟨19410, 1, ⟨3, "USD"⟩, none⟩

/-- Operation whose settlement date (day 120) differs from its
operation date (day 100). -/
def c9Op : PortfolioOperation := .vesting ⟨100, 10, ⟨2, "USD"⟩, some 120⟩

/-- A different operation sharing `c9Op`'s settlement date. -/
def c9OpSameSettlement : PortfolioOperation := .trade ⟨110, 1, ⟨3, "USD"⟩, some 120⟩

/-- Position fixture for `c9Op`. -/
def c9Position : PortfolioPosition := PortfolioPosition.createEmpty 90

/-- Rate fixture for `c9Op`. -/
def c9Rate : ExchangeRate := ⟨"USD", "BRL", 120, some 5, some 5⟩

/-- The result of executing `c9Op` against `c9Position` and `c9Rate`
(defaulting to a dummy on error; the execution in fact succeeds). -/
def c9Result : OperationResult :=
  (c9Op.execute c9Position c9Rate).toOption.getD
    ⟨PortfolioPosition.createEmpty 0, ⟨"", 0, 0, 0, ⟨0, "USD"⟩, ⟨0, 0⟩, none⟩⟩

/-- Constructible trade fixture: 5 shares @ 1 USD. -/
def c10Trade : TradeOperation := ⟨0, 5, ⟨1, "USD"⟩, none⟩

/-! Helper lemmas shared by the claim theorems. -/

/-- Closed form of a successful `TradeOperation.execute`: with both rate
sides present, a USD/BRL rate, and enough shares, the result is exactly
the record built by the source. -/
theorem trade_execute_ok (op : TradeOperation) (pos : PortfolioPosition)
    (rate : ExchangeRate) (bid ask : ℚ)
    (hbid : rate.bidRate = some bid) (hask : rate.askRate = some ask)
    (hfrom : rate.fromCurrency = "USD") (hto : rate.toCurrency = "BRL")
    (hq : op.quantity ≤ pos.quantity) (hpos : 0 < pos.quantity) :
    op.execute pos rate = .ok
      ⟨⟨pos.quantity - op.quantity,
        ⟨pos.totalCostUsd.amount * (1 - (op.quantity : ℚ) / (pos.quantity : ℚ)), "USD"⟩,
        ⟨pos.totalCostBrl.amount * (1 - (op.quantity : ℚ) / (pos.quantity : ℚ)), "BRL"⟩,
        if pos.quantity - op.quantity = 0 then ⟨0, "USD"⟩ else pos.averagePriceUsd,
        ⟨pos.grossProfitBrl.amount +
          (op.pricePerShareUsd.amount * (op.quantity : ℚ) * ask
            - pos.totalCostBrl.amount / (pos.quantity : ℚ) * (op.quantity : ℚ)), "BRL"⟩,
        op.date⟩,
       ⟨"trade", op.date, op.getSettlementDate, op.quantity, op.pricePerShareUsd, ⟨bid, ask⟩,
        some ⟨⟨op.pricePerShareUsd.amount * (op.quantity : ℚ), "USD"⟩,
              ⟨op.pricePerShareUsd.amount * (op.quantity : ℚ) * ask, "BRL"⟩,
              ⟨pos.averagePriceUsd.amount * (op.quantity : ℚ), "USD"⟩,
              ⟨pos.totalCostBrl.amount / (pos.quantity : ℚ) * (op.quantity : ℚ), "BRL"⟩,
              ⟨op.pricePerShareUsd.amount * (op.quantity : ℚ) * ask
                - pos.totalCostBrl.amount / (pos.quantity : ℚ) * (op.quantity : ℚ), "BRL"⟩⟩⟩⟩ := by
  have hnq : ¬ (op.quantity > pos.quantity) := not_lt.2 hq
  have hne : pos.quantity ≠ 0 := hpos.ne'
  simp [TradeOperation.execute, ExchangeRate.convert, PortfolioPosition.averagePriceBrl,
    PortfolioPosition.isEmpty, hbid, hask, hfrom, hto, hnq, hne]

/-- Closed form of a successful `VestingOperation.execute`. -/
theorem vesting_execute_ok (op : VestingOperation) (pos : PortfolioPosition)
    (rate : ExchangeRate) (bid ask : ℚ)
    (hbid : rate.bidRate = some bid) (hask : rate.askRate = some ask)
    (hfrom : rate.fromCurrency = "USD") (hto : rate.toCurrency = "BRL") :
    op.execute pos rate = .ok
      ⟨⟨pos.quantity + op.quantity,
        ⟨pos.totalCostUsd.amount + op.pricePerShareUsd.amount * (op.quantity : ℚ), "USD"⟩,
        ⟨pos.totalCostBrl.amount + op.pricePerShareUsd.amount * (op.quantity : ℚ) * bid, "BRL"⟩,
        ⟨if 0 < pos.quantity + op.quantity then
            (pos.totalCostUsd.amount + op.pricePerShareUsd.amount * (op.quantity : ℚ))
              / ((pos.quantity + op.quantity : ℕ) : ℚ)
          else 0, "USD"⟩,
        pos.grossProfitBrl, op.date⟩,
       ⟨"vesting", op.date, op.getSettlementDate, op.quantity, op.pricePerShareUsd,
        ⟨bid, ask⟩, none⟩⟩ := by
  simp [VestingOperation.execute, ExchangeRate.convert, hbid, hask, hfrom, hto]

/-- After the first operation the `isFirst` flag is false, and the loop
then agrees with the uniformly-worded year-reset loop. -/
theorem runOps_false_eq (lookup : RateLookup) (ops : List PortfolioOperation) :
    ∀ cur, runOps lookup ops cur false = runOpsYearReset lookup ops cur := by
  induction ops with
  | nil => intro cur; rfl
  | cons op rest ih =>
    intro cur
    simp only [runOps, runOpsYearReset, eq_self_iff_true, true_and]
    cases hr : getExchangeRateForOperation lookup op with
    | error e => rfl
    | ok rate =>
      dsimp only
      cases hx : op.execute
          (if yearOfEpochDay op.getDate > yearOfEpochDay cur.lastUpdated then
            cur.resetGrossProfitForNewYear else cur) rate with
      | error e => rfl
      | ok result =>
        dsimp only
        rw [ih result.position]

/-- Starting the loop with the pre-applied first-operation reset agrees
with the uniformly-worded year-reset loop. -/
theorem runOps_true_eq (lookup : RateLookup) (op : PortfolioOperation)
    (rest : List PortfolioOperation) (cur : PortfolioPosition) :
    runOps lookup (op :: rest)
      (if yearOfEpochDay op.getDate > yearOfEpochDay cur.lastUpdated then
        cur.resetGrossProfitForNewYear else cur) true
      = runOpsYearReset lookup (op :: rest) cur := by
  simp only [runOps, runOpsYearReset]
  rw [if_neg (by simp)]
  cases hr : getExchangeRateForOperation lookup op with
  | error e => rfl
  | ok rate =>
    dsimp only
    cases hx : op.execute
        (if yearOfEpochDay op.getDate > yearOfEpochDay cur.lastUpdated then
          cur.resetGrossProfitForNewYear else cur) rate with
    | error e => rfl
    | ok result =>
      dsimp only
      rw [runOps_false_eq lookup rest result.position]

/-- Two sorted permutations of each other with pairwise-distinct
operation dates are equal. -/
theorem sorted_perm_nodup_eq :
    ∀ {l₁ l₂ : List PortfolioOperation}, l₁.Perm l₂ →
      l₁.Sorted dateLe → l₂.Sorted dateLe →
      (l₁.map PortfolioOperation.getDate).Nodup → l₁ = l₂ := by
  intro l₁
  induction l₁ with
  | nil => intro l₂ hp _ _ _; exact hp.nil_eq
  | cons a t ih =>
    intro l₂ hp hs₁ hs₂ hn
    cases l₂ with
    | nil => exact absurd hp.symm.nil_eq (by simp)
    | cons b t₂ =>
      have hab : a = b := by
        by_contra hne
        have hbmem : b ∈ a :: t := hp.symm.subset (List.mem_cons_self b t₂)
        have hamem : a ∈ b :: t₂ := hp.subset (List.mem_cons_self a t)
        have hbt : b ∈ t := by
          cases List.mem_cons.1 hbmem with
          | inl h => exact absurd h.symm hne
          | inr h => exact h
        have hat : a ∈ t₂ := by
          cases List.mem_cons.1 hamem with
          | inl h => exact absurd h hne
          | inr h => exact h
        have h₁ : dateLe a b := (List.sorted_cons.1 hs₁).1 b hbt
        have h₂ : dateLe b a := (List.sorted_cons.1 hs₂).1 a hat
        have heq : a.getDate = b.getDate := le_antisymm h₁ h₂
        rw [List.map_cons, List.nodup_cons] at hn
        exact hn.1 (heq ▸ List.mem_map_of_mem PortfolioOperation.getDate hbt)
      subst hab
      rw [List.map_cons, List.nodup_cons] at hn
      have ht : t = t₂ :=
        ih hp.cons_inv (List.sorted_cons.1 hs₁).2 (List.sorted_cons.1 hs₂).2 hn.2
      rw [ht]

/-! Claim theorems. -/

/-- C1: for every disposal of quantity `q` against a position with
`quantity > 0` and `q ≤ quantity`, with both rate sides present (on a
USD→BRL rate), the BRL cost basis is `q × (totalCostBrl / quantity)`,
the BRL sale revenue is `q × price × ask`, the realized gain is their
difference, and it is added to the position's accumulated gain. -/
theorem trade_costBasis_and_realized_gain (op : TradeOperation) (pos : PortfolioPosition)
    (rate : ExchangeRate) (bid ask : ℚ)
    (hbid : rate.bidRate = some bid) (hask : rate.askRate = some ask)
    (hfrom : rate.fromCurrency = "USD") (hto : rate.toCurrency = "BRL")
    (hq : op.quantity ≤ pos.quantity) (hpos : 0 < pos.quantity) :
    ∃ result : OperationResult, op.execute pos rate = .ok result ∧
      ∃ tf : TradeFinancials, result.metadata.tradeFinancials = some tf ∧
        tf.costBasisBrl.amount =
          (op.quantity : ℚ) * (pos.totalCostBrl.amount / (pos.quantity : ℚ)) ∧
        tf.saleRevenueBrl.amount = (op.quantity : ℚ) * op.pricePerShareUsd.amount * ask ∧
        tf.profitLossBrl.amount = tf.saleRevenueBrl.amount - tf.costBasisBrl.amount ∧
        result.position.grossProfitBrl.amount =
          pos.grossProfitBrl.amount + tf.profitLossBrl.amount := by
  refine ⟨_, trade_execute_ok op pos rate bid ask hbid hask hfrom hto hq hpos,
    _, rfl, ?_, ?_, ?_, ?_⟩
  · dsimp only; ring
  · dsimp only; ring
  · dsimp only
  · dsimp only

/-- C1 witness: 200-share position with accumulated BRL cost 9000,
selling 100 @ 12 with bid 4.8 / ask 4.9 yields sale revenue 5880, cost
basis 4500, realized gain 1380. -/
theorem trade_costBasis_and_realized_gain_witness :
    (c1Rate.bidRate = some (24/5) ∧ c1Rate.askRate = some (49/10) ∧
     c1Rate.fromCurrency = "USD" ∧ c1Rate.toCurrency = "BRL" ∧
     c1Trade.quantity ≤ c1Position.quantity ∧ 0 < c1Position.quantity) ∧
    (∃ result : OperationResult, c1Trade.execute c1Position c1Rate = .ok result ∧
      ∃ tf : TradeFinancials, result.metadata.tradeFinancials = some tf ∧
        tf.costBasisBrl.amount =
          (c1Trade.quantity : ℚ) * (c1Position.totalCostBrl.amount / (c1Position.quantity : ℚ)) ∧
        tf.saleRevenueBrl.amount = (c1Trade.quantity : ℚ) * c1Trade.pricePerShareUsd.amount * (49/10) ∧
        tf.profitLossBrl.amount = tf.saleRevenueBrl.amount - tf.costBasisBrl.amount ∧
        result.position.grossProfitBrl.amount =
          c1Position.grossProfitBrl.amount + tf.profitLossBrl.amount) ∧
    Except.map (fun r : OperationResult => r.metadata.tradeFinancials.map
        (fun tf => (tf.saleRevenueBrl.amount, tf.costBasisBrl.amount, tf.profitLossBrl.amount)))
      (c1Trade.execute c1Position c1Rate) = .ok (some (5880, 4500, 1380)) :=
  ⟨⟨rfl, rfl, rfl, rfl, by norm_num [c1Trade, c1Position], by norm_num [c1Position]⟩,
   trade_costBasis_and_realized_gain c1Trade c1Position c1Rate (24/5) (49/10) rfl rfl rfl rfl
     (by norm_num [c1Trade, c1Position]) (by norm_num [c1Position]),
   by simp [c1Trade, c1Position, c1Rate, TradeOperation.execute, ExchangeRate.convert,
        PortfolioPosition.averagePriceBrl, PortfolioPosition.isEmpty, Except.map]; norm_num⟩

/-- C2: the BRL average price is derived on read — `⟨0, BRL⟩` for an
empty position, `totalCostBrl / quantity` otherwise — and after the two
regression-test vestings (100 @ 6.50, bid 5.2237, then 100 @ 4.431929,
bid 4.7924) the derived average is 137984066349/5000000000 (≈ 27.5968),
which differs from `averagePriceUsd × 4.7924`
(= 130975441349/5000000000 ≈ 26.1951). -/
theorem averagePriceBrl_derived_from_accumulated_cost :
    (∀ p : PortfolioPosition, p.quantity = 0 → p.averagePriceBrl = ⟨0, "BRL"⟩) ∧
    (∀ p : PortfolioPosition, p.quantity ≠ 0 →
      p.averagePriceBrl = ⟨p.totalCostBrl.amount / (p.quantity : ℚ), "BRL"⟩) ∧
    Except.map (fun r : OperationResult =>
        (r.position.quantity, r.position.averagePriceBrl.amount,
         r.position.totalCostBrl.amount / (r.position.quantity : ℚ),
         r.position.averagePriceUsd.amount * (47924/10000)))
      vestingChain = .ok (200, 137984066349/5000000000, 137984066349/5000000000,
        130975441349/5000000000) ∧
    (137984066349/5000000000 : ℚ) ≠ 130975441349/5000000000 := by
  refine ⟨?_, ?_, ?_, by norm_num⟩
  · intro p hp
    simp [PortfolioPosition.averagePriceBrl, PortfolioPosition.isEmpty, hp]
  · intro p hp
    simp [PortfolioPosition.averagePriceBrl, PortfolioPosition.isEmpty, hp]
  · simp [vestingChain, vestingFeb, vestingJun, ptaxFeb, ptaxJun, VestingOperation.execute,
      ExchangeRate.convert, Except.bind, Except.map, PortfolioPosition.createEmpty,
      PortfolioPosition.averagePriceBrl, PortfolioPosition.isEmpty]
    norm_num

/-- C2 witness: the derived-average equations instantiated on an empty
position and on the 200-share worked-example position. -/
theorem averagePriceBrl_derived_from_accumulated_cost_witness :
    ((PortfolioPosition.createEmpty 0).quantity = 0 ∧
      (PortfolioPosition.createEmpty 0).averagePriceBrl = ⟨0, "BRL"⟩) ∧
    (c1Position.quantity ≠ 0 ∧
      c1Position.averagePriceBrl =
        ⟨c1Position.totalCostBrl.amount / (c1Position.quantity : ℚ), "BRL"⟩) :=
  ⟨⟨rfl, averagePriceBrl_derived_from_accumulated_cost.1 (PortfolioPosition.createEmpty 0) rfl⟩,
   ⟨by norm_num [c1Position],
    averagePriceBrl_derived_from_accumulated_cost.2.1 c1Position (by norm_num [c1Position])⟩⟩

/-- C3: a vesting of quantity `q > 0` at unit price `p`, with both rate
sides present, adds `q` shares, `q × p` USD cost, `q × p × bid` BRL
cost, recomputes the USD average as `newTotalCostUsd / newQuantity`,
and leaves the realized gain exactly unchanged. -/
theorem vesting_accumulates_costs_and_preserves_gain (op : VestingOperation)
    (pos : PortfolioPosition) (rate : ExchangeRate) (bid ask : ℚ)
    (hbid : rate.bidRate = some bid) (hask : rate.askRate = some ask)
    (hfrom : rate.fromCurrency = "USD") (hto : rate.toCurrency = "BRL")
    (hq : 0 < op.quantity) :
    ∃ result : OperationResult, op.execute pos rate = .ok result ∧
      result.position.quantity = pos.quantity + op.quantity ∧
      result.position.totalCostUsd.amount =
        pos.totalCostUsd.amount + (op.quantity : ℚ) * op.pricePerShareUsd.amount ∧
      result.position.totalCostBrl.amount =
        pos.totalCostBrl.amount + (op.quantity : ℚ) * op.pricePerShareUsd.amount * bid ∧
      result.position.averagePriceUsd.amount =
        result.position.totalCostUsd.amount / ((result.position.quantity : ℕ) : ℚ) ∧
      result.position.grossProfitBrl = pos.grossProfitBrl := by
  refine ⟨_, vesting_execute_ok op pos rate bid ask hbid hask hfrom hto, rfl, ?_, ?_, ?_, rfl⟩
  · dsimp only; ring
  · dsimp only; ring
  · have hq' : 0 < pos.quantity + op.quantity := by omega
    dsimp only
    rw [if_pos hq']

/-- C3 witness: vesting 100 shares @ 6.50 with bid 5 / ask 6 onto an
empty position. -/
theorem vesting_accumulates_costs_and_preserves_gain_witness :
    (c3Rate.bidRate = some 5 ∧ c3Rate.askRate = some 6 ∧
     c3Rate.fromCurrency = "USD" ∧ c3Rate.toCurrency = "BRL" ∧ 0 < c3Vesting.quantity) ∧
    (∃ result : OperationResult,
      c3Vesting.execute (PortfolioPosition.createEmpty 0) c3Rate = .ok result ∧
      result.position.quantity = (PortfolioPosition.createEmpty 0).quantity + c3Vesting.quantity ∧
      result.position.totalCostUsd.amount =
        (PortfolioPosition.createEmpty 0).totalCostUsd.amount +
          (c3Vesting.quantity : ℚ) * c3Vesting.pricePerShareUsd.amount ∧
      result.position.totalCostBrl.amount =
        (PortfolioPosition.createEmpty 0).totalCostBrl.amount +
          (c3Vesting.quantity : ℚ) * c3Vesting.pricePerShareUsd.amount * 5 ∧
      result.position.averagePriceUsd.amount =
        result.position.totalCostUsd.amount / ((result.position.quantity : ℕ) : ℚ) ∧
      result.position.grossProfitBrl = (PortfolioPosition.createEmpty 0).grossProfitBrl) :=
  ⟨⟨rfl, rfl, rfl, rfl, by norm_num [c3Vesting]⟩,
   vesting_accumulates_costs_and_preserves_gain c3Vesting (PortfolioPosition.createEmpty 0)
     c3Rate 5 6 rfl rfl rfl rfl (by norm_num [c3Vesting])⟩

/-- C4: `resetGrossProfitForNewYear` zeroes the gross profit and changes
no other field, and the orchestrator run equals the run that resets the
gross profit before every operation exactly when the operation's
calendar year exceeds the current position's year (covering the supplied
initial position before the first operation). -/
theorem year_boundary_reset_exact_and_frame :
    (∀ p : PortfolioPosition,
      (p.resetGrossProfitForNewYear).grossProfitBrl = ⟨0, "BRL"⟩ ∧
      (p.resetGrossProfitForNewYear).quantity = p.quantity ∧
      (p.resetGrossProfitForNewYear).totalCostUsd = p.totalCostUsd ∧
      (p.resetGrossProfitForNewYear).totalCostBrl = p.totalCostBrl ∧
      (p.resetGrossProfitForNewYear).averagePriceUsd = p.averagePriceUsd ∧
      (p.resetGrossProfitForNewYear).lastUpdated = p.lastUpdated) ∧
    (∀ (lookup : RateLookup) (operations : List PortfolioOperation)
        (initialPosition : Option PortfolioPosition),
      executeOperations lookup operations initialPosition =
        executeOperationsYearReset lookup operations initialPosition) := by
  constructor
  · intro p
    exact ⟨rfl, rfl, rfl, rfl, rfl, rfl⟩
  · intro lookup operations initialPosition
    unfold executeOperations executeOperationsYearReset
    cases hs : List.insertionSort dateLe operations with
    | nil => rfl
    | cons firstOp rest =>
      cases initialPosition with
      | some p => exact runOps_true_eq lookup firstOp rest p
      | none =>
        have h := runOps_true_eq lookup firstOp rest
          (PortfolioPosition.createEmpty firstOp.getDate)
        rw [if_neg (by simp [PortfolioPosition.createEmpty])] at h
        simpa [Option.getD] using h

/-- C5: rate resolution queries offsets 0..7 before the settlement date
and returns the first non-null answer; a hit exactly 7 days earlier
succeeds, and 8 misses produce `RateNotFoundError`. -/
theorem rate_fallback_seven_days :
    (∀ (lookup : RateLookup) (operation : PortfolioOperation) (j : ℕ) (rate : ExchangeRate),
      j ≤ 7 →
      (∀ k : ℕ, k < j → lookup "USD" "BRL" (operation.getSettlementDate - (k : ℤ)) = none) →
      lookup "USD" "BRL" (operation.getSettlementDate - (j : ℤ)) = some rate →
      getExchangeRateForOperation lookup operation = .ok rate) ∧
    (∀ (lookup : RateLookup) (operation : PortfolioOperation),
      (∀ k : ℕ, k ≤ 7 → lookup "USD" "BRL" (operation.getSettlementDate - (k : ℤ)) = none) →
      getExchangeRateForOperation lookup operation =
        .error (.rateNotFound operation.getSettlementDate)) := by
  constructor
  · intro lookup operation j rate hj hnone hsome
    have hrange : List.range 8 = [0, 1, 2, 3, 4, 5, 6, 7] := rfl
    interval_cases j
    · have hs : lookup "USD" "BRL" operation.getSettlementDate = some rate := by
        simpa using hsome
      simp [getExchangeRateForOperation, tryRatesFrom, hrange, hs]
    · have hs : lookup "USD" "BRL" (operation.getSettlementDate - 1) = some rate := by
        simpa using hsome
      have h0 : lookup "USD" "BRL" operation.getSettlementDate = none := by
        simpa using hnone 0 (by norm_num)
      simp [getExchangeRateForOperation, tryRatesFrom, hrange, h0, hs]
    · have hs : lookup "USD" "BRL" (operation.getSettlementDate - 2) = some rate := by
        simpa using hsome
      have h0 : lookup "USD" "BRL" operation.getSettlementDate = none := by
        simpa using hnone 0 (by norm_num)
      have h1 : lookup "USD" "BRL" (operation.getSettlementDate - 1) = none := by
        simpa using hnone 1 (by norm_num)
      simp [getExchangeRateForOperation, tryRatesFrom, hrange, h0, h1, hs]
    · have hs : lookup "USD" "BRL" (operation.getSettlementDate - 3) = some rate := by
        simpa using hsome
      have h0 : lookup "USD" "BRL" operation.getSettlementDate = none := by
        simpa using hnone 0 (by norm_num)
      have h1 : lookup "USD" "BRL" (operation.getSettlementDate - 1) = none := by
        simpa using hnone 1 (by norm_num)
      have h2 : lookup "USD" "BRL" (operation.getSettlementDate - 2) = none := by
        simpa using hnone 2 (by norm_num)
      simp [getExchangeRateForOperation, tryRatesFrom, hrange, h0, h1, h2, hs]
    · have hs : lookup "USD" "BRL" (operation.getSettlementDate - 4) = some rate := by
        simpa using hsome
      have h0 : lookup "USD" "BRL" operation.getSettlementDate = none := by
        simpa using hnone 0 (by norm_num)
      have h1 : lookup "USD" "BRL" (operation.getSettlementDate - 1) = none := by
        simpa using hnone 1 (by norm_num)
      have h2 : lookup "USD" "BRL" (operation.getSettlementDate - 2) = none := by
        simpa using hnone 2 (by norm_num)
      have h3 : lookup "USD" "BRL" (operation.getSettlementDate - 3) = none := by
        simpa using hnone 3 (by norm_num)
      simp [getExchangeRateForOperation, tryRatesFrom, hrange, h0, h1, h2, h3, hs]
    · have hs : lookup "USD" "BRL" (operation.getSettlementDate - 5) = some rate := by
        simpa using hsome
      have h0 : lookup "USD" "BRL" operation.getSettlementDate = none := by
        simpa using hnone 0 (by norm_num)
      have h1 : lookup "USD" "BRL" (operation.getSettlementDate - 1) = none := by
        simpa using hnone 1 (by norm_num)
      have h2 : lookup "USD" "BRL" (operation.getSettlementDate - 2) = none := by
        simpa using hnone 2 (by norm_num)
      have h3 : lookup "USD" "BRL" (operation.getSettlementDate - 3) = none := by
        simpa using hnone 3 (by norm_num)
      have h4 : lookup "USD" "BRL" (operation.getSettlementDate - 4) = none := by
        simpa using hnone 4 (by norm_num)
      simp [getExchangeRateForOperation, tryRatesFrom, hrange, h0, h1, h2, h3, h4, hs]
    · have hs : lookup "USD" "BRL" (operation.getSettlementDate - 6) = some rate := by
        simpa using hsome
      have h0 : lookup "USD" "BRL" operation.getSettlementDate = none := by
        simpa using hnone 0 (by norm_num)
      have h1 : lookup "USD" "BRL" (operation.getSettlementDate - 1) = none := by
        simpa using hnone 1 (by norm_num)
      have h2 : lookup "USD" "BRL" (operation.getSettlementDate - 2) = none := by
        simpa using hnone 2 (by norm_num)
      have h3 : lookup "USD" "BRL" (operation.getSettlementDate - 3) = none := by
        simpa using hnone 3 (by norm_num)
      have h4 : lookup "USD" "BRL" (operation.getSettlementDate - 4) = none := by
        simpa using hnone 4 (by norm_num)
      have h5 : lookup "USD" "BRL" (operation.getSettlementDate - 5) = none := by
        simpa using hnone 5 (by norm_num)
      simp [getExchangeRateForOperation, tryRatesFrom, hrange, h0, h1, h2, h3, h4, h5, hs]
    · have hs : lookup "USD" "BRL" (operation.getSettlementDate - 7) = some rate := by
        simpa using hsome
      have h0 : lookup "USD" "BRL" operation.getSettlementDate = none := by
        simpa using hnone 0 (by norm_num)
      have h1 : lookup "USD" "BRL" (operation.getSettlementDate - 1) = none := by
        simpa using hnone 1 (by norm_num)
      have h2 : lookup "USD" "BRL" (operation.getSettlementDate - 2) = none := by
        simpa using hnone 2 (by norm_num)
      have h3 : lookup "USD" "BRL" (operation.getSettlementDate - 3) = none := by
        simpa using hnone 3 (by norm_num)
      have h4 : lookup "USD" "BRL" (operation.getSettlementDate - 4) = none := by
        simpa using hnone 4 (by norm_num)
      have h5 : lookup "USD" "BRL" (operation.getSettlementDate - 5) = none := by
        simpa using hnone 5 (by norm_num)
      have h6 : lookup "USD" "BRL" (operation.getSettlementDate - 6) = none := by
        simpa using hnone 6 (by norm_num)
      simp [getExchangeRateForOperation, tryRatesFrom, hrange, h0, h1, h2, h3, h4, h5, h6, hs]
  · intro lookup operation hnone
    have hrange : List.range 8 = [0, 1, 2, 3, 4, 5, 6, 7] := rfl
    have h0 : lookup "USD" "BRL" operation.getSettlementDate = none := by
      simpa using hnone 0 (by norm_num)
    have h1 : lookup "USD" "BRL" (operation.getSettlementDate - 1) = none := by
      simpa using hnone 1 (by norm_num)
    have h2 : lookup "USD" "BRL" (operation.getSettlementDate - 2) = none := by
      simpa using hnone 2 (by norm_num)
    have h3 : lookup "USD" "BRL" (operation.getSettlementDate - 3) = none := by
      simpa using hnone 3 (by norm_num)
    have h4 : lookup "USD" "BRL" (operation.getSettlementDate - 4) = none := by
      simpa using hnone 4 (by norm_num)
    have h5 : lookup "USD" "BRL" (operation.getSettlementDate - 5) = none := by
      simpa using hnone 5 (by norm_num)
    have h6 : lookup "USD" "BRL" (operation.getSettlementDate - 6) = none := by
      simpa using hnone 6 (by norm_num)
    have h7 : lookup "USD" "BRL" (operation.getSettlementDate - 7) = none := by
      simpa using hnone 7 (by norm_num)
    simp [getExchangeRateForOperation, tryRatesFrom, hrange, h0, h1, h2, h3, h4, h5, h6, h7]

/-- C5 witness: a lookup answering only 7 days before the settlement
date succeeds with that rate; a lookup that never answers fails with
`RateNotFoundError`. -/
theorem rate_fallback_seven_days_witness :
    ((∀ k : ℕ, k < 7 → c5LookupHit "USD" "BRL" (c5Op.getSettlementDate - (k : ℤ)) = none) ∧
      c5LookupHit "USD" "BRL" (c5Op.getSettlementDate - ((7 : ℕ) : ℤ)) = some c5RateWeekAgo ∧
      getExchangeRateForOperation c5LookupHit c5Op = .ok c5RateWeekAgo) ∧
    ((∀ k : ℕ, k ≤ 7 → c5LookupNone "USD" "BRL" (c5Op.getSettlementDate - (k : ℤ)) = none) ∧
      getExchangeRateForOperation c5LookupNone c5Op = .error (.rateNotFound 100)) := by
  have hn : ∀ k : ℕ, k < 7 → c5LookupHit "USD" "BRL" (c5Op.getSettlementDate - (k : ℤ)) = none := by
    decide
  have hs : c5LookupHit "USD" "BRL" (c5Op.getSettlementDate - ((7 : ℕ) : ℤ)) = some c5RateWeekAgo := by
    rfl
  have hn' : ∀ k : ℕ, k ≤ 7 → c5LookupNone "USD" "BRL" (c5Op.getSettlementDate - (k : ℤ)) = none := by
    intro k _; rfl
  exact ⟨⟨hn, hs, rate_fallback_seven_days.1 c5LookupHit c5Op 7 c5RateWeekAgo (by norm_num) hn hs⟩,
    ⟨hn', rate_fallback_seven_days.2 c5LookupNone c5Op hn'⟩⟩

/-- C6: a disposal requesting more shares than held (in particular any
constructible disposal against an empty position) fails with
`InsufficientSharesError` carrying the requested and available amounts;
nothing is clamped. -/
theorem insufficient_shares_error (op : TradeOperation) (pos : PortfolioPosition)
    (rate : ExchangeRate) (hq : 1 ≤ op.quantity)
    (hcase : pos.quantity < op.quantity ∨ pos.quantity = 0) :
    op.execute pos rate = .error (.insufficientShares op.quantity pos.quantity) := by
  have hgt : op.quantity > pos.quantity := by
    cases hcase with
    | inl h => exact h
    | inr h => omega
  simp [TradeOperation.execute, hgt]

/-- C6 witness: selling 300 shares from the 200-share worked-example
position fails with `InsufficientSharesError 300 200`. -/
theorem insufficient_shares_error_witness :
    (1 ≤ c6Trade.quantity ∧ (c1Position.quantity < c6Trade.quantity ∨ c1Position.quantity = 0)) ∧
    c6Trade.execute c1Position c1Rate = .error (.insufficientShares 300 200) :=
  ⟨⟨by norm_num [c6Trade], Or.inl (by norm_num [c6Trade, c1Position])⟩,
   insufficient_shares_error c6Trade c1Position c1Rate (by norm_num [c6Trade])
     (Or.inl (by norm_num [c6Trade, c1Position]))⟩

/-- C7: selling exactly all held shares zeroes the quantity, both total
costs and both average prices; a partial disposal leaves the USD average
price unchanged. -/
theorem full_liquidation_resets_averages :
    (∀ (op : TradeOperation) (pos : PortfolioPosition) (rate : ExchangeRate) (bid ask : ℚ),
      rate.bidRate = some bid → rate.askRate = some ask →
      rate.fromCurrency = "USD" → rate.toCurrency = "BRL" →
      0 < pos.quantity → op.quantity = pos.quantity →
      ∃ result : OperationResult, op.execute pos rate = .ok result ∧
        result.position.quantity = 0 ∧
        result.position.totalCostUsd.amount = 0 ∧
        result.position.totalCostBrl.amount = 0 ∧
        result.position.averagePriceUsd = ⟨0, "USD"⟩ ∧
        result.position.averagePriceBrl = ⟨0, "BRL"⟩) ∧
    (∀ (op : TradeOperation) (pos : PortfolioPosition) (rate : ExchangeRate) (bid ask : ℚ),
      rate.bidRate = some bid → rate.askRate = some ask →
      rate.fromCurrency = "USD" → rate.toCurrency = "BRL" →
      op.quantity < pos.quantity →
      ∃ result : OperationResult, op.execute pos rate = .ok result ∧
        result.position.averagePriceUsd = pos.averagePriceUsd) := by
  constructor
  · intro op pos rate bid ask hbid hask hfrom hto hpos heq
    have hfrac : ((op.quantity : ℚ) / (pos.quantity : ℚ)) = 1 := by
      rw [heq]
      exact div_self (by exact_mod_cast hpos.ne')
    refine ⟨_, trade_execute_ok op pos rate bid ask hbid hask hfrom hto (le_of_eq heq) hpos,
      ?_, ?_, ?_, ?_, ?_⟩
    · dsimp only; omega
    · dsimp only; rw [hfrac]; ring
    · dsimp only; rw [hfrac]; ring
    · dsimp only; rw [if_pos (by omega)]
    · simp [PortfolioPosition.averagePriceBrl, PortfolioPosition.isEmpty, heq]
  · intro op pos rate bid ask hbid hask hfrom hto hlt
    have hpos : 0 < pos.quantity := by omega
    refine ⟨_, trade_execute_ok op pos rate bid ask hbid hask hfrom hto (le_of_lt hlt) hpos, ?_⟩
    dsimp only
    rw [if_neg (by omega)]

/-- C7 witness: full liquidation of the 200-share worked-example
position, and a partial sale of 50 shares from it. -/
theorem full_liquidation_resets_averages_witness :
    (c1Rate.bidRate = some (24/5) ∧ c1Rate.askRate = some (49/10) ∧
     c1Rate.fromCurrency = "USD" ∧ c1Rate.toCurrency = "BRL" ∧
     0 < c1Position.quantity ∧ c7TradeFull.quantity = c1Position.quantity ∧
     c7TradePart.quantity < c1Position.quantity) ∧
    (∃ result : OperationResult, c7TradeFull.execute c1Position c1Rate = .ok result ∧
      result.position.quantity = 0 ∧
      result.position.totalCostUsd.amount = 0 ∧
      result.position.totalCostBrl.amount = 0 ∧
      result.position.averagePriceUsd = ⟨0, "USD"⟩ ∧
      result.position.averagePriceBrl = ⟨0, "BRL"⟩) ∧
    (∃ result : OperationResult, c7TradePart.execute c1Position c1Rate = .ok result ∧
      result.position.averagePriceUsd = c1Position.averagePriceUsd) :=
  ⟨⟨rfl, rfl, rfl, rfl, by norm_num [c1Position], by norm_num [c7TradeFull, c1Position],
    by norm_num [c7TradePart, c1Position]⟩,
   full_liquidation_resets_averages.1 c7TradeFull c1Position c1Rate (24/5) (49/10)
     rfl rfl rfl rfl (by norm_num [c1Position]) (by norm_num [c7TradeFull, c1Position]),
   full_liquidation_resets_averages.2 c7TradePart c1Position c1Rate (24/5) (49/10)
     rfl rfl rfl rfl (by norm_num [c7TradePart, c1Position])⟩

/-- C8 counterexample: two same-date vestings with different prices.
Swapping their input order changes the output of `executeOperations`
(the sort is stable, so equal-date operations keep their input order),
refuting order independence for inputs with shared dates. -/
theorem order_dependence_on_equal_dates_counterexample :
    c8VestA.getDate = c8VestB.getDate ∧
    executeOperations c8Lookup [c8VestA, c8VestB] none ≠
      executeOperations c8Lookup [c8VestB, c8VestA] none := by
  refine ⟨rfl, ?_⟩
  intro h
  simp [executeOperations, runOps, getExchangeRateForOperation, tryRatesFrom, c8Lookup,
    c8VestA, c8VestB, dateLe, PortfolioOperation.getDate, PortfolioOperation.getSettlementDate,
    PortfolioOperation.execute, VestingOperation.execute, VestingOperation.getSettlementDate,
    ExchangeRate.convert, PortfolioPosition.createEmpty, yearOfEpochDay,
    PortfolioPosition.resetGrossProfitForNewYear, List.range_succ] at h

/-- C8 amended: when the operations' dates are pairwise distinct, every
permutation of the input list yields identical `positions` and `results`
sequences. -/
theorem order_independence_distinct_dates (lookup : RateLookup)
    (initialPosition : Option PortfolioPosition)
    (ops ops' : List PortfolioOperation) (hperm : ops.Perm ops')
    (hn : (ops.map PortfolioOperation.getDate).Nodup) :
    executeOperations lookup ops initialPosition =
      executeOperations lookup ops' initialPosition := by
  have hp : (List.insertionSort dateLe ops).Perm (List.insertionSort dateLe ops') :=
    ((List.perm_insertionSort dateLe ops).trans hperm).trans
      (List.perm_insertionSort dateLe ops').symm
  have hnsort : ((List.insertionSort dateLe ops).map PortfolioOperation.getDate).Nodup :=
    (((List.perm_insertionSort dateLe ops).map PortfolioOperation.getDate).nodup_iff).2 hn
  have hsort : List.insertionSort dateLe ops = List.insertionSort dateLe ops' :=
    sorted_perm_nodup_eq hp (List.sorted_insertionSort dateLe ops)
      (List.sorted_insertionSort dateLe ops') hnsort
  unfold executeOperations
  rw [hsort]

/-- C8 witness: two vestings on distinct days 19400 and 19410 give the
same run in either input order. -/
theorem order_independence_distinct_dates_witness :
    ([c8DistinctA, c8DistinctB].Perm [c8DistinctB, c8DistinctA] ∧
      ([c8DistinctA, c8DistinctB].map PortfolioOperation.getDate).Nodup) ∧
    executeOperations c8Lookup [c8DistinctA, c8DistinctB] none =
      executeOperations c8Lookup [c8DistinctB, c8DistinctA] none :=
  ⟨⟨List.Perm.swap c8DistinctB c8DistinctA [], by decide⟩,
   order_independence_distinct_dates c8Lookup none [c8DistinctA, c8DistinctB]
     [c8DistinctB, c8DistinctA] (List.Perm.swap c8DistinctB c8DistinctA []) (by decide)⟩

/-- C9: a successful execution stamps the new position with the
operation date (not the settlement date), while rate resolution depends
only on the settlement date. -/
theorem position_date_is_operation_date :
    (∀ (operation : PortfolioOperation) (pos : PortfolioPosition) (rate : ExchangeRate)
        (result : OperationResult),
      operation.execute pos rate = .ok result →
      result.position.lastUpdated = operation.getDate) ∧
    (∀ (lookup : RateLookup) (op op' : PortfolioOperation),
      op.getSettlementDate = op'.getSettlementDate →
      getExchangeRateForOperation lookup op = getExchangeRateForOperation lookup op') := by
  constructor
  · intro operation pos rate result h
    cases operation with
    | vesting op =>
      simp only [PortfolioOperation.execute, VestingOperation.execute] at h
      split at h
      · split at h
        · exact absurd h (by simp)
        · simp only [Except.ok.injEq] at h
          subst h
          rfl
      · exact absurd h (by simp)
    | trade op =>
      simp only [PortfolioOperation.execute, TradeOperation.execute] at h
      split at h
      · exact absurd h (by simp)
      · split at h
        · exact absurd h (by simp)
        · split at h
          · split at h
            · exact absurd h (by simp)
            · simp only [Except.ok.injEq] at h
              subst h
              rfl
          · exact absurd h (by simp)
  · intro lookup op op' h
    unfold getExchangeRateForOperation
    rw [h]

/-- C9 witness: a vesting with operation date 100 and settlement date
120 stamps the position with 100, and rate resolution agrees between
two operations sharing settlement date 120. -/
theorem position_date_is_operation_date_witness :
    c9Op.execute c9Position c9Rate = .ok c9Result ∧
    c9Result.position.lastUpdated = c9Op.getDate ∧
    c9Op.getDate ≠ c9Op.getSettlementDate ∧
    (c9Op.getSettlementDate = c9OpSameSettlement.getSettlementDate ∧
      ∀ lookup : RateLookup,
        getExchangeRateForOperation lookup c9Op =
          getExchangeRateForOperation lookup c9OpSameSettlement) := by
  have hexec : c9Op.execute c9Position c9Rate = .ok c9Result := rfl
  exact ⟨hexec, position_date_is_operation_date.1 c9Op c9Position c9Rate c9Result hexec,
    by decide,
    ⟨rfl, fun lookup => position_date_is_operation_date.2 lookup c9Op c9OpSameSettlement rfl⟩⟩

/-- C10: the `TradeOperation` constructor rejects quantity ≤ 0, so every
constructed disposal holds at least one share, and for such disposals
the `Cannot sell from empty portfolio` branch of `execute` can never be
reached. -/
theorem empty_sale_branch_unreachable :
    (∀ (date : JDate) (quantity : ℕ) (price : Money) (settlement : Option JDate)
        (op : TradeOperation),
      TradeOperation.create date quantity price settlement = .ok op → 1 ≤ op.quantity) ∧
    (∀ (op : TradeOperation) (pos : PortfolioPosition) (rate : ExchangeRate),
      1 ≤ op.quantity → op.execute pos rate ≠ .error .emptySale) := by
  constructor
  · intro date quantity price settlement op h
    simp only [TradeOperation.create] at h
    split at h
    · exact absurd h (by simp)
    · split at h
      · exact absurd h (by simp)
      · rename_i hqty
        simp only [Except.ok.injEq] at h
        subst h
        dsimp only
        omega
  · intro op pos rate hq hcontra
    simp only [TradeOperation.execute] at hcontra
    split at hcontra
    · simp at hcontra
    · split at hcontra
      · rename_i hng h0
        omega
      · split at hcontra
        · split at hcontra
          · simp at hcontra
          · simp at hcontra
        · simp at hcontra

/-- C10 witness: constructing a 5-share disposal succeeds with quantity
5 ≥ 1, and executing it against an empty position does not reach the
empty-portfolio branch. -/
theorem empty_sale_branch_unreachable_witness :
    (TradeOperation.create 0 5 ⟨1, "USD"⟩ none = .ok c10Trade ∧ 1 ≤ c10Trade.quantity) ∧
    (1 ≤ c10Trade.quantity ∧
      c10Trade.execute (PortfolioPosition.createEmpty 0) c1Rate ≠ .error .emptySale) :=
  ⟨⟨by simp [TradeOperation.create, c10Trade],
    empty_sale_branch_unreachable.1 0 5 ⟨1, "USD"⟩ none c10Trade
      (by simp [TradeOperation.create, c10Trade])⟩,
   ⟨by norm_num [c10Trade],
    empty_sale_branch_unreachable.2 c10Trade (PortfolioPosition.createEmpty 0) c1Rate
      (by norm_num [c10Trade])⟩⟩

end StockPortfolio
